import Mathlib

/-!
# Verification of the Javari Engineering OS core algorithms

A shallow embedding, in Lean 4, of the pure computational core of the
`javari-engineering-os` TypeScript repository, together with theorems that
settle the specification claims about it.

Embedded components:

* `packages/workqueue/src/generator.ts` — severity/category mapping,
  canonical fingerprints (SHA-256), work-item generation (dedup by
  fingerprint), priority scores and the work-item state machine
  (`VALID_TRANSITIONS` / `transitionWorkItem`).
* `apps/cron-master/src/app/api/cron/master/route.ts` — the five-field cron
  expression matcher `shouldRunNow`.
* the master orchestrator — `acquireLock` / `releaseLock` over the
  `cron_locks` table (whose `lock_key` column is `UNIQUE` per
  `packages/db/migrations/001_complete_schema.sql`), and the per-job run
  bookkeeping of `runOnce` (status classification and the
  `consecutive_failures` streak).
* `packages/selfheal/src/proofReport.ts` — `computeGaps` and the
  `verification` block of `generateProofReport`.

JavaScript strings are modelled as Lean `String`, with the JS string
methods re-implemented by structural recursion over the character list
(`String.data`) so that every definition evaluates inside the kernel.
JS numbers in these code paths are integers (millisecond timestamps,
counters, cron field values), modelled as `Nat`; the two places where a
fractional intermediate value occurs (`Math.round(x*10)/10` and the
percentage rounding in the proof report) are modelled exactly, in tenths.
-/

namespace JS

/-- JS whitespace characters relevant to `String.prototype.trim` (ASCII part). -/
def isWs (c : Char) : Bool :=
  c = ' ' ∨ c = '\t' ∨ c = '\n' ∨ c = '\r' ∨ c = '\x0b' ∨ c = '\x0c'

/-- `String.prototype.trim()`: strip whitespace from both ends. -/
def jsTrim (s : String) : String :=
  ⟨((s.data.dropWhile isWs).reverse.dropWhile isWs).reverse⟩

/-- `String.prototype.toUpperCase()` (ASCII range, the range these code paths use). -/
def jsUpper (s : String) : String :=
  ⟨s.data.map Char.toUpper⟩

/-- `String.prototype.toLowerCase()` (ASCII range). -/
def jsLower (s : String) : String :=
  ⟨s.data.map Char.toLower⟩

/-- Is `pre` a (contiguous) prefix of `l`? -/
def listIsPrefix : List Char → List Char → Bool
  | [], _ => true
  | _ :: _, [] => false
  | p :: ps, c :: cs => p = c && listIsPrefix ps cs

/-- Does `l` contain `sub` as a contiguous substring? -/
def listHasInfix (sub : List Char) : List Char → Bool
  | [] => listIsPrefix sub []
  | c :: cs => listIsPrefix sub (c :: cs) || listHasInfix sub cs

/-- `String.prototype.includes(sub)`. -/
def jsIncludes (s sub : String) : Bool :=
  listHasInfix sub.data s.data

/-- `String.prototype.startsWith(pre)`. -/
def jsStartsWith (s pre : String) : Bool :=
  listIsPrefix pre.data s.data

/-- `String.prototype.slice(n)` for a non-negative index `n`. -/
def jsSlice (s : String) (n : Nat) : String :=
  ⟨s.data.drop n⟩

/-- `Array.prototype.join(sep)` for an array of strings. -/
def jsJoin (sep : String) : List String → String
  | [] => ""
  | [x] => x
  | x :: y :: rest => x ++ sep ++ jsJoin sep (y :: rest)

/-- Worker for `String.prototype.split(sep)` with a single-character
separator: `cur` is the chunk currently being read, in reverse. -/
def splitOnCharAux (sep : Char) : List Char → List Char → List (List Char)
  | cur, [] => [cur.reverse]
  | cur, c :: cs =>
    if c = sep then cur.reverse :: splitOnCharAux sep [] cs
    else splitOnCharAux sep (c :: cur) cs

/-- `String.prototype.split(sep)` for a single-character separator, over
character lists. -/
def splitOnChar (sep : Char) (l : List Char) : List (List Char) :=
  splitOnCharAux sep [] l

/-- `String.prototype.split(sep)` for a single-character separator. -/
def jsSplit (s : String) (sep : Char) : List String :=
  (splitOnChar sep s.data).map fun l => ⟨l⟩

/-- Is `c` an ASCII decimal digit? -/
def isDigitChar (c : Char) : Bool :=
  48 ≤ c.toNat && c.toNat ≤ 57

/-- Numeric value accumulated from a list of digit characters (base 10),
left to right. -/
def digitsVal (l : List Char) : Nat :=
  l.foldl (fun acc c => acc * 10 + (c.toNat - 48)) 0

/-- `parseInt(s, 10)` restricted to the non-negative inputs these code paths
feed it: the longest leading run of ASCII digits is parsed; if there is
none, the JS result is `NaN`, modelled as `none`. -/
def parseIntOpt (s : String) : Option Nat :=
  let ds := s.data.takeWhile isDigitChar
  if ds.isEmpty then none else some (digitsVal ds)

/-- `Number(s)` on a field piece, as used by the cron range/list branches:
digits parse to the number, anything else is `NaN` (`none`); comparisons
against `NaN` are all false, which callers encode by matching on `none`. -/
def jsNumberOpt (s : String) : Option Nat :=
  if s.data ≠ [] ∧ s.data.all isDigitChar then some (digitsVal s.data) else none

end JS

namespace SHA256

/-!
The generator computes fingerprints with Node's
`crypto.createHash('sha256').update(s).digest('hex')`.  This section is a
direct implementation of FIPS 180-4 SHA-256 over byte lists, preceded by
UTF-8 encoding of the input string.
-/

/-- Truncate to a 32-bit word. -/
def w32 (x : Nat) : Nat := x % 4294967296

/-- 32-bit right rotation. -/
def rotr (n x : Nat) : Nat := w32 ((x >>> n) ||| (x <<< (32 - n)))

/-- 32-bit bitwise complement. -/
def compl32 (x : Nat) : Nat := x ^^^ 4294967295

def bigSigma0 (x : Nat) : Nat := rotr 2 x ^^^ rotr 13 x ^^^ rotr 22 x

def bigSigma1 (x : Nat) : Nat := rotr 6 x ^^^ rotr 11 x ^^^ rotr 25 x

def smallSigma0 (x : Nat) : Nat := rotr 7 x ^^^ rotr 18 x ^^^ (x >>> 3)

def smallSigma1 (x : Nat) : Nat := rotr 17 x ^^^ rotr 19 x ^^^ (x >>> 10)

def chf (x y z : Nat) : Nat := (x &&& y) ^^^ (compl32 x &&& z)

def maj (x y z : Nat) : Nat := (x &&& y) ^^^ (x &&& z) ^^^ (y &&& z)

/-- The 64 SHA-256 round constants (FIPS 180-4 section 4.2.2), in decimal. -/
def K : List Nat :=
  [1116352408, 1899447441, 3049323471, 3921009573, 961987163,
   1508970993, 2453635748, 2870763221, 3624381080, 310598401,
   607225278, 1426881987, 1925078388, 2162078206, 2614888103,
   3248222580, 3835390401, 4022224774, 264347078, 604807628,
   770255983, 1249150122, 1555081692, 1996064986, 2554220882,
   2821834349, 2952996808, 3210313671, 3336571891, 3584528711,
   113926993, 338241895, 666307205, 773529912, 1294757372,
   1396182291, 1695183700, 1986661051, 2177026350, 2456956037,
   2730485921, 2820302411, 3259730800, 3345764771, 3516065817,
   3600352804, 4094571909, 275423344, 430227734, 506948616,
   659060556, 883997877, 958139571, 1322822218, 1537002063,
   1747873779, 1955562222, 2024104815, 2227730452, 2361852424,
   2428436474, 2756734187, 3204031479, 3329325298]

/-- The initial hash value (FIPS 180-4 section 5.3.3), in decimal. -/
def H0 : List Nat :=
  [1779033703, 3144134277, 1013904242, 2773480762,
   1359893119, 2600822924, 528734635, 1541459225]

/-- Big-endian bytes → 32-bit words. -/
def wordsOfBytes : List Nat → List Nat
  | b0 :: b1 :: b2 :: b3 :: rest =>
    ((((b0 <<< 8) ||| b1) <<< 8 ||| b2) <<< 8 ||| b3) :: wordsOfBytes rest
  | _ => []

/-- The 8-byte big-endian encoding of `n`. -/
def be64 (n : Nat) : List Nat :=
  [(n >>> 56) &&& 255, (n >>> 48) &&& 255, (n >>> 40) &&& 255, (n >>> 32) &&& 255,
   (n >>> 24) &&& 255, (n >>> 16) &&& 255, (n >>> 8) &&& 255, n &&& 255]

/-- FIPS 180-4 padding: append `0x80`, zeros to 56 mod 64, then the message
bit length as 8 big-endian bytes. -/
def padMessage (m : List Nat) : List Nat :=
  m ++ 0x80 :: List.replicate ((119 - m.length % 64) % 64) 0 ++ be64 (8 * m.length)

/-- Split into 64-byte blocks; `fuel` is the number of blocks. -/
def chunk64 : Nat → List Nat → List (List Nat)
  | 0, _ => []
  | n + 1, l => l.take 64 :: chunk64 n (l.drop 64)

/-- Extend the 16-word schedule by `n` further words.  `ws` is the schedule
so far, most recent word first, so `W[t-2]` is at index 1, `W[t-7]` at 6,
`W[t-15]` at 14 and `W[t-16]` at 15. -/
def extendSchedule : Nat → List Nat → List Nat
  | 0, ws => ws
  | n + 1, ws =>
    extendSchedule n
      (w32 (smallSigma1 (ws.getD 1 0) + ws.getD 6 0 +
            smallSigma0 (ws.getD 14 0) + ws.getD 15 0) :: ws)

/-- One compression round on the working variables `[a,b,c,d,e,f,g,h]`. -/
def roundStep (st : List Nat) (kw : Nat × Nat) : List Nat :=
  match st with
  | [a, b, c, d, e, f, g, h] =>
    let t1 := w32 (h + bigSigma1 e + chf e f g + kw.1 + kw.2)
    let t2 := w32 (bigSigma0 a + maj a b c)
    [w32 (t1 + t2), a, b, c, w32 (d + t1), e, f, g]
  | other => other

/-- Process one 64-byte block against the intermediate hash `hs`. -/
def processBlock (hs : List Nat) (block : List Nat) : List Nat :=
  let ws := (extendSchedule 48 (wordsOfBytes block).reverse).reverse
  let st := (K.zip ws).foldl roundStep hs
  (hs.zip st).map fun p => w32 (p.1 + p.2)

/-- SHA-256 of a byte list, as the eight 32-bit hash words. -/
def sha256Words (msg : List Nat) : List Nat :=
  let padded := padMessage msg
  (chunk64 (padded.length / 64) padded).foldl processBlock H0

/-- Lower-case hex digit for a nibble. -/
def hexDigitChar : Nat → Char
  | 0 => '0' | 1 => '1' | 2 => '2' | 3 => '3' | 4 => '4'
  | 5 => '5' | 6 => '6' | 7 => '7' | 8 => '8' | 9 => '9'
  | 10 => 'a' | 11 => 'b' | 12 => 'c' | 13 => 'd' | 14 => 'e' | _ => 'f'

/-- The 8 hex characters of a 32-bit word. -/
def word8Hex (w : Nat) : List Char :=
  [hexDigitChar ((w >>> 28) &&& 15), hexDigitChar ((w >>> 24) &&& 15),
   hexDigitChar ((w >>> 20) &&& 15), hexDigitChar ((w >>> 16) &&& 15),
   hexDigitChar ((w >>> 12) &&& 15), hexDigitChar ((w >>> 8) &&& 15),
   hexDigitChar ((w >>> 4) &&& 15), hexDigitChar (w &&& 15)]

/-- SHA-256 of a byte list, as a lower-case hex string. -/
def sha256HexOfBytes (msg : List Nat) : String :=
  ⟨(sha256Words msg).foldr (fun w acc => word8Hex w ++ acc) []⟩

/-- UTF-8 encoding of one code point. -/
def utf8Char (c : Nat) : List Nat :=
  if c < 0x80 then [c]
  else if c < 0x800 then
    [0xc0 ||| (c >>> 6), 0x80 ||| (c &&& 0x3f)]
  else if c < 0x10000 then
    [0xe0 ||| (c >>> 12), 0x80 ||| ((c >>> 6) &&& 0x3f), 0x80 ||| (c &&& 0x3f)]
  else
    [0xf0 ||| (c >>> 18), 0x80 ||| ((c >>> 12) &&& 0x3f),
     0x80 ||| ((c >>> 6) &&& 0x3f), 0x80 ||| (c &&& 0x3f)]

/-- UTF-8 encoding of a string, as Node's `hash.update(s)` performs it. -/
def utf8 (s : String) : List Nat :=
  s.data.foldr (fun c acc => utf8Char c.toNat ++ acc) []

/-- `crypto.createHash('sha256').update(s).digest('hex')`. -/
def sha256Hex (s : String) : String :=
  sha256HexOfBytes (utf8 s)

end SHA256

namespace Workqueue

/-!
Embedding of `packages/workqueue/src/generator.ts`.  The Supabase tables
are modelled as in-memory lists threaded through the functions; row ids are
generated from a fresh-id counter, mirroring unique auto-generated primary
keys.
-/

/-- The `Severity` union type. -/
inductive Severity where
  | CRITICAL | HIGH | MEDIUM | LOW | INFO
deriving DecidableEq, Repr, Fintype

/-- The `Category` union type. -/
inductive Category where
  | OPS | SECURITY | API | SEO | A11Y | PERF | UX | DATA | PAYMENTS | AUTH | COST | LEARNING | OTHER
deriving DecidableEq, Repr

/-- The `WorkStatus` union type. -/
inductive WorkStatus where
  | NEW | DISPATCHED | IN_PROGRESS | PR_OPENED | VERIFIED | MERGED | DEPLOYED | BLOCKED | FAILED | SUPPRESSED
deriving DecidableEq, Repr, Fintype

/-- The string carried at runtime by a `Severity` value. -/
def severityStr : Severity → String
  | .CRITICAL => "CRITICAL"
  | .HIGH => "HIGH"
  | .MEDIUM => "MEDIUM"
  | .LOW => "LOW"
  | .INFO => "INFO"

/-- The string carried at runtime by a `Category` value. -/
def categoryStr : Category → String
  | .OPS => "OPS"
  | .SECURITY => "SECURITY"
  | .API => "API"
  | .SEO => "SEO"
  | .A11Y => "A11Y"
  | .PERF => "PERF"
  | .UX => "UX"
  | .DATA => "DATA"
  | .PAYMENTS => "PAYMENTS"
  | .AUTH => "AUTH"
  | .COST => "COST"
  | .LEARNING => "LEARNING"
  | .OTHER => "OTHER"

/-- `x || y` on JS strings: the empty string is falsy. -/
def jsOrStr (x y : String) : String :=
  if x = "" then y else x

/-- `x || y` where `x` may be `null`/`undefined` and `y` is a string. -/
def jsOrOptStr (x : Option String) (y : String) : String :=
  match x with
  | some s => jsOrStr s y
  | none => y

/-- `x || undefined` / `x || null` on an optional string: the empty string
collapses to `undefined`/`null`. -/
def jsFalsyToNone (x : Option String) : Option String :=
  match x with
  | some s => if s = "" then none else some s
  | none => none

/-- The `sha256` helper: `crypto.createHash('sha256').update(s).digest('hex')`. -/
def sha256 (s : String) : String :=
  SHA256.sha256Hex s

/-- The argument record of `canonicalFingerprint`. -/
structure FingerprintInput where
  category : String
  severity : String
  title : String
  url : Option String
deriving DecidableEq, Repr

/-- The `|`-joined canonical string hashed by `canonicalFingerprint`. -/
def canonicalBase (input : FingerprintInput) : String :=
  JS.jsJoin "|"
    [JS.jsUpper (JS.jsTrim input.category),
     JS.jsUpper (JS.jsTrim input.severity),
     JS.jsTrim input.title,
     JS.jsTrim (input.url.getD "")]

/-- `canonicalFingerprint` from `generator.ts`. -/
def canonicalFingerprint (input : FingerprintInput) : String :=
  sha256 (canonicalBase input)

/-- `mapSeverity` from `generator.ts`: case-insensitive substring match. -/
def mapSeverity (s : String) : Severity :=
  let up := JS.jsUpper s
  if JS.jsIncludes up "CRIT" then .CRITICAL
  else if JS.jsIncludes up "HIGH" then .HIGH
  else if JS.jsIncludes up "MED" then .MEDIUM
  else if JS.jsIncludes up "LOW" then .LOW
  else .INFO

/-- `mapCategory` from `generator.ts`. -/
def mapCategory (c : String) : Category :=
  let up := JS.jsUpper c
  if JS.jsIncludes up "SEC" then .SECURITY
  else if JS.jsIncludes up "API" then .API
  else if JS.jsIncludes up "SEO" then .SEO
  else if JS.jsIncludes up "A11Y" || JS.jsIncludes up "ACCESS" then .A11Y
  else if JS.jsIncludes up "PERF" then .PERF
  else if JS.jsIncludes up "DATA" || JS.jsIncludes up "DB" then .DATA
  else if JS.jsIncludes up "AUTH" then .AUTH
  else if JS.jsIncludes up "PAY" then .PAYMENTS
  else if JS.jsIncludes up "OPS" then .OPS
  else if JS.jsIncludes up "COST" then .COST
  else .OTHER

/-- An `audit_issues` row.  `details_json` stands for
`JSON.stringify(issue.details || {}, null, 2)` (the record itself is opaque
JSON data) and `evidence_values` for `Object.values(issue.evidence || {}).map(String)`. -/
structure AuditIssue where
  id : String
  run_id : String
  fingerprint : String
  severity : String
  category : String
  title : String
  url : Option String
  details_json : String
  evidence_values : List String
deriving DecidableEq, Repr

/-- `generateRecommendedFix` from `generator.ts`. -/
def generateRecommendedFix (title : String) (url : Option String) : String :=
  let titleLower := JS.jsLower title
  if JS.jsIncludes titleLower "cron" && JS.jsIncludes titleLower "limit" then
    "CRITICAL: Consolidate all cron jobs into master orchestrator.\n1. Deploy javari-engineering-os master cron\n2. Migrate per-project crons to autonomous_jobs table\n3. Delete individual project crons\n4. Verify master cron heartbeat"
  else if JS.jsIncludes titleLower "503" then
    "FIX 503 on " ++ jsOrOptStr url "page" ++ ":\n1. Check Vercel function logs\n2. Verify environment variables\n3. Check Supabase connection\n4. Add graceful error handling"
  else if JS.jsIncludes titleLower "500" then
    "FIX 500 on " ++ jsOrOptStr url "endpoint" ++ ":\n1. Check server logs for stack trace\n2. Verify database queries\n3. Add try/catch with structured errors\n4. Validate input parameters"
  else if JS.jsIncludes titleLower "404" then
    "FIX 404 on " ++ jsOrOptStr url "route" ++ ":\n1. Verify route file exists\n2. Check for typos (case sensitive)\n3. Ensure proper routing conventions\n4. Add missing handler"
  else
    "Resolve: " ++ title ++ "\n1. Investigate root cause\n2. Implement fix with tests\n3. Verify in preview\n4. Document solution"

/-- `generateAcceptanceCriteria` from `generator.ts`. -/
def generateAcceptanceCriteria (issue : AuditIssue) : List String :=
  let criteria :=
    ["Issue \"" ++ issue.title ++ "\" is fully resolved",
     "No new errors introduced",
     "All tests pass"]
  match jsFalsyToNone issue.url with
  | some u => (u ++ " returns 200 OK") :: criteria
  | none => criteria

/-- `generateVerificationPlan` from `generator.ts`. -/
def generateVerificationPlan (issue : AuditIssue) : List String :=
  let plan := ["pnpm lint && pnpm typecheck", "pnpm test", "pnpm audit:canary"]
  match jsFalsyToNone issue.url with
  | some u => ("curl -sI \"" ++ u ++ "\" | head -1") :: plan
  | none => plan

/-- `generateRollbackPlan` from `generator.ts`. -/
def generateRollbackPlan : List String :=
  ["Revert PR or rollback in Vercel",
   "Disable new feature flags",
   "Re-run audit:canary",
   "Notify team if needed"]

/-- The `workItemData` object built for each non-INFO issue inside
`generateWorkItemsFromAuditRun`, i.e. every column the insert/update writes
except `status`. -/
structure WorkItemData where
  fingerprint : String
  title : String
  description : String
  severity : Severity
  category : Category
  route_or_endpoint : Option String
  recommended_fix : String
  acceptance_criteria : List String
  verification_plan : List String
  rollback_plan : List String
  evidence_urls : List String
  source_run_id : String
  source_issue_fingerprint : String
  priority_score : Nat
  requires_approval : Bool
  assigned_model : String
  tags : List String
  created_by : String
deriving DecidableEq, Repr

/-- The `priority_score` expression of `workItemData`:
`severity === 'CRITICAL' ? 95 : severity === 'HIGH' ? 80 : 50`. -/
def priorityScore (severity : Severity) : Nat :=
  if severity = .CRITICAL then 95 else if severity = .HIGH then 80 else 50

/-- Construction of `workItemData` from an issue (lines 207–226 of
`generator.ts`). -/
def mkWorkItemData (runId : String) (issue : AuditIssue) (severity : Severity)
    (category : Category) (fingerprint : String) : WorkItemData :=
  { fingerprint := fingerprint
    title := issue.title
    description :=
      issue.title ++ "\n\nURL: " ++ jsOrOptStr issue.url "(n/a)" ++
      "\n\nDetails:\n" ++ issue.details_json
    severity := severity
    category := category
    route_or_endpoint := issue.url
    recommended_fix := generateRecommendedFix issue.title issue.url
    acceptance_criteria := generateAcceptanceCriteria issue
    verification_plan := generateVerificationPlan issue
    rollback_plan := generateRollbackPlan
    evidence_urls := issue.evidence_values.filter (fun v => v ≠ "")
    source_run_id := runId
    source_issue_fingerprint := issue.fingerprint
    priority_score := priorityScore severity
    requires_approval := severity = .CRITICAL || severity = .HIGH
    assigned_model := "claude"
    tags := [JS.jsLower (categoryStr category), JS.jsLower (severityStr severity)]
    created_by := "auditops" }

/-- A `work_items` row: its primary key, every generated column
(`WorkItemData`), and its `status`. -/
structure WorkItemRow where
  id : Nat
  data : WorkItemData
  status : WorkStatus
deriving DecidableEq, Repr

/-- The generation state threaded through
`generateWorkItemsFromAuditRun`: the `work_items` table, the fresh-id
counter of its primary key, and the `GenerationResult` counters. -/
structure GenState where
  db : List WorkItemRow
  nextId : Nat
  created : Nat
  updated : Nat
  skipped : Nat
  workItemIds : List Nat
deriving DecidableEq, Repr

/-- `select('id, status').eq('fingerprint', fp).single()`: under the
one-row-per-fingerprint invariant the single match is the first match. -/
def findByFingerprint (db : List WorkItemRow) (fp : String) : Option WorkItemRow :=
  db.find? fun r => r.data.fingerprint = fp

/-- The statuses `['IN_PROGRESS', 'PR_OPENED', 'VERIFIED', 'MERGED', 'DEPLOYED']`
that make generation skip an existing item. -/
def ACTIVE_STATUSES : List WorkStatus :=
  [.IN_PROGRESS, .PR_OPENED, .VERIFIED, .MERGED, .DEPLOYED]

/-- The `canonicalFingerprint` call of the generation loop: the mapped
category and severity strings, the issue title, and `issue.url || undefined`. -/
def issueFingerprint (issue : AuditIssue) : String :=
  canonicalFingerprint
    { category := categoryStr (mapCategory issue.category)
      severity := severityStr (mapSeverity issue.severity)
      title := issue.title
      url := jsFalsyToNone issue.url }

/-- The body of the per-issue loop of `generateWorkItemsFromAuditRun`
(lines 191–260 of `generator.ts`). -/
def processIssue (runId : String) (st : GenState) (issue : AuditIssue) : GenState :=
  let severity := mapSeverity issue.severity
  let category := mapCategory issue.category
  if severity = .INFO then
    { st with skipped := st.skipped + 1 }
  else
    let fingerprint := issueFingerprint issue
    let workItemData := mkWorkItemData runId issue severity category fingerprint
    match findByFingerprint st.db fingerprint with
    | some existing =>
      if existing.status ∈ ACTIVE_STATUSES then
        { st with skipped := st.skipped + 1 }
      else
        { st with
          db := st.db.map fun r =>
            if r.id = existing.id then { r with data := workItemData, status := .NEW } else r
          updated := st.updated + 1
          workItemIds := st.workItemIds ++ [existing.id] }
    | none =>
      { st with
        db := st.db ++ [{ id := st.nextId, data := workItemData, status := .NEW }]
        nextId := st.nextId + 1
        created := st.created + 1
        workItemIds := st.workItemIds ++ [st.nextId] }

/-- `generateWorkItemsFromAuditRun`, over the batch of issues selected for
`runId`. -/
def generateWorkItemsFromAuditRun (runId : String) (issues : List AuditIssue)
    (st : GenState) : GenState :=
  issues.foldl (processIssue runId) st

/-- The `VALID_TRANSITIONS` table. -/
def VALID_TRANSITIONS : WorkStatus → List WorkStatus
  | .NEW => [.DISPATCHED, .SUPPRESSED]
  | .DISPATCHED => [.IN_PROGRESS, .FAILED, .BLOCKED]
  | .IN_PROGRESS => [.PR_OPENED, .FAILED, .BLOCKED]
  | .PR_OPENED => [.VERIFIED, .FAILED, .BLOCKED]
  | .VERIFIED => [.MERGED, .FAILED, .BLOCKED]
  | .MERGED => [.DEPLOYED, .FAILED]
  | .DEPLOYED => [.SUPPRESSED]
  | .BLOCKED => [.DISPATCHED, .FAILED, .SUPPRESSED]
  | .FAILED => [.DISPATCHED, .SUPPRESSED]
  | .SUPPRESSED => []

/-- The mutable columns `transitionWorkItem` touches. -/
structure WorkItemState where
  status : WorkStatus
  attempts : Nat
  last_error : Option String
  cooldown_until : Option Nat
deriving DecidableEq, Repr

/-- The `opts` argument of `transitionWorkItem`. -/
structure TransitionOpts where
  error : Option String
  cooldownMinutes : Option Nat
deriving DecidableEq, Repr

/-- `transitionWorkItem` (lines 301–338 of `generator.ts`) on the fetched
item: the returned boolean and the row afterwards.  `nowMs` is `Date.now()`.
A `cooldownMinutes` of `0` is falsy in JS, so it does not set
`cooldown_until`; an `error` of `''` is falsy, so `last_error` becomes null. -/
def transitionWorkItem (item : WorkItemState) (toStatus : WorkStatus)
    (opts : TransitionOpts) (nowMs : Nat) : Bool × WorkItemState :=
  let fromStatus := item.status
  if (VALID_TRANSITIONS fromStatus).contains toStatus then
    let afterStatus : WorkItemState :=
      { item with status := toStatus, last_error := jsFalsyToNone opts.error }
    let afterAttempts :=
      if toStatus = .FAILED then { afterStatus with attempts := item.attempts + 1 }
      else afterStatus
    let afterCooldown :=
      match opts.cooldownMinutes with
      | some m =>
        if m ≠ 0 then { afterAttempts with cooldown_until := some (nowMs + m * 60000) }
        else afterAttempts
      | none => afterAttempts
    (true, afterCooldown)
  else
    (false, item)

end Workqueue

namespace CronMaster

/-!
Embedding of `shouldRunNow` from
`apps/cron-master/src/app/api/cron/master/route.ts` (lines 36–80).
-/

/-- The five components read from `new Date()` by `shouldRunNow`. -/
structure CronTime where
  minute : Nat
  hour : Nat
  dayOfMonth : Nat
  month : Nat
  dayOfWeek : Nat
deriving DecidableEq, Repr

/-- The inner `matches` closure of `shouldRunNow`.  JS arithmetic on `NaN`
(a failed `parseInt`/`Number`, or `value % 0`) makes every comparison false,
which the `Option` branches encode. -/
def matchesField (field : String) (value : Nat) : Bool :=
  if field = "*" then true
  else if JS.jsStartsWith field "*/" then
    match JS.parseIntOpt (JS.jsSlice field 2) with
    | some interval => if interval = 0 then false else value % interval == 0
    | none => false
  else if JS.jsIncludes field "-" then
    match (JS.jsSplit field '-').map JS.jsNumberOpt with
    | some a :: some b :: _ => a ≤ value && value ≤ b
    | _ => false
  else if JS.jsIncludes field "," then
    ((JS.jsSplit field ',').map JS.jsNumberOpt).contains (some value)
  else
    match JS.parseIntOpt field with
    | some n => value == n
    | none => false

/-- `shouldRunNow(cronExpression)` evaluated at clock reading `t`. -/
def shouldRunNow (cronExpression : String) (t : CronTime) : Bool :=
  match JS.jsSplit cronExpression ' ' with
  | [cronMin, cronHour, cronDay, cronMonth, cronDow] =>
    matchesField cronMin t.minute &&
    matchesField cronHour t.hour &&
    matchesField cronDay t.dayOfMonth &&
    matchesField cronMonth t.month &&
    matchesField cronDow t.dayOfWeek
  | _ => false

end CronMaster

namespace Orchestrator

/-!
Embedding of the master orchestrator: `acquireLock`/`releaseLock` over the
`cron_locks` table, and the per-job bookkeeping of `runOnce`.  The
`cron_locks` table has `lock_key TEXT NOT NULL UNIQUE`
(`packages/db/migrations/001_complete_schema.sql`), so the insert succeeds
exactly when no row with that key remains after the expired-row cleanup.
Times are millisecond epoch values.
-/

/-- A `cron_locks` row. -/
structure LockRow where
  lock_key : String
  expires_at : Nat
  acquired_by : String
deriving DecidableEq, Repr

/-- `addSeconds`, in milliseconds. -/
def addSecondsMs (d : Nat) (sec : Nat) : Nat := d + sec * 1000

/-- `acquireLock(lockKey, ttlSeconds, acquiredBy)` at time `nowMs`: delete
every row with `expires_at` strictly in the past, then attempt the
unique-constrained insert; the returned boolean is `!error`. -/
def acquireLock (db : List LockRow) (lockKey : String) (ttlSeconds : Nat)
    (acquiredBy : String) (nowMs : Nat) : Bool × List LockRow :=
  let expiresAt := addSecondsMs nowMs ttlSeconds
  let cleaned := db.filter fun r => !(r.expires_at < nowMs)
  if cleaned.any fun r => r.lock_key = lockKey then
    (false, cleaned)
  else
    (true, cleaned ++ [{ lock_key := lockKey, expires_at := expiresAt, acquired_by := acquiredBy }])

/-- `releaseLock(lockKey)`: delete every row with this key. -/
def releaseLock (db : List LockRow) (lockKey : String) : List LockRow :=
  db.filter fun r => !(r.lock_key = lockKey)

/-- The orchestrator's `RunStatus` union type. -/
inductive RunStatus where
  | RUNNING | SUCCESS | FAIL | DEGRADED | TIMEOUT
deriving DecidableEq, Repr

/-- The orchestrator's `JobResult`. -/
structure JobResult where
  issues : Nat
  fixes : Nat
  verification : Bool
  summary : String
deriving DecidableEq, Repr

/-- How the `Promise.race([executeHandler(job), timeoutPromise])` inside
`runOnce` settles: the handler resolves within `timeout_ms`, or a rejection
is caught.  When the handler exceeds `timeout_ms`, the race rejects with
`new Error('Job timeout')`, i.e. `thrown "Job timeout"`. -/
inductive HandlerOutcome where
  | ok (result : JobResult)
  | thrown (msg : String)
deriving DecidableEq, Repr

/-- The run status `runOnce` records for an outcome: `DEGRADED` when issues
were found but nothing fixed, `TIMEOUT` exactly for the `'Job timeout'`
error, `FAIL` for any other caught error. -/
def runStatusOf (outcome : HandlerOutcome) : RunStatus :=
  match outcome with
  | .ok result => if result.issues > 0 && result.fixes == 0 then .DEGRADED else .SUCCESS
  | .thrown msg => if msg = "Job timeout" then .TIMEOUT else .FAIL

/-- The `consecutive_failures` value `runOnce` writes back to the job:
`status === 'FAIL' ? (job.consecutive_failures || 0) + 1 : 0`. -/
def nextConsecutiveFailures (prevFailures : Nat) (status : RunStatus) : Nat :=
  if status = .FAIL then prevFailures + 1 else 0

end Orchestrator

namespace SelfHeal

/-!
Embedding of `computeGaps` and the `verification` block of
`generateProofReport` from `packages/selfheal/src/proofReport.ts`.
`created_at` timestamps are millisecond epoch values
(`new Date(r.created_at).getTime()`).  A gap's `minutes` field is
`Math.round(diffMinutes * 10) / 10`, a value with one decimal digit,
modelled exactly in tenths of a minute; the `uptime_pct` threshold is
likewise modelled in tenths of a percent.
-/

/-- An `autonomous_runs` sample, with the fields the report reads. -/
structure RunSample where
  created_at : Nat
  status : String
  heartbeat : Bool
  issues_detected_count : Nat
  fixes_applied_count : Nat
deriving DecidableEq, Repr

/-- A recorded gap between adjacent heartbeat runs.  `finish` is the `end`
field (a Lean keyword); `minutesTenths` is `minutes` in tenths. -/
structure Gap where
  start : Nat
  finish : Nat
  minutesTenths : Nat
deriving DecidableEq, Repr

/-- Stable insertion step for the ascending `created_at` sort. -/
def insertByTime (x : RunSample) : List RunSample → List RunSample
  | [] => [x]
  | y :: ys =>
    if x.created_at ≤ y.created_at then x :: y :: ys else y :: insertByTime x ys

/-- `[...runs].sort((a, b) => timeOf a - timeOf b)`: a stable ascending
sort, as JS `Array.prototype.sort` is specified to be. -/
def sortByTime : List RunSample → List RunSample
  | [] => []
  | x :: xs => insertByTime x (sortByTime xs)

/-- `Math.round((next - current) / 60000 * 10)`, the gap length in tenths
of a minute, for a millisecond difference `diffMs`. -/
def roundTenthsOfMinute (diffMs : Nat) : Nat :=
  (diffMs + 3000) / 6000

/-- The gap-collecting loop over adjacent pairs of the sorted runs: a gap is
recorded whenever the difference exceeds 2 minutes. -/
def adjacentGaps : List RunSample → List Gap
  | a :: b :: rest =>
    let diffMs := b.created_at - a.created_at
    let tail := adjacentGaps (b :: rest)
    if 120000 < diffMs then
      { start := a.created_at, finish := b.created_at,
        minutesTenths := roundTenthsOfMinute diffMs } :: tail
    else tail
  | _ => []

/-- Stable insertion step for the descending `minutes` sort. -/
def insertByMinutesDesc (x : Gap) : List Gap → List Gap
  | [] => [x]
  | y :: ys =>
    if y.minutesTenths ≤ x.minutesTenths then x :: y :: ys
    else y :: insertByMinutesDesc x ys

/-- `gaps.sort((a, b) => b.minutes - a.minutes)`: stable descending sort. -/
def sortGapsDesc : List Gap → List Gap
  | [] => []
  | x :: xs => insertByMinutesDesc x (sortGapsDesc xs)

/-- `computeGaps` (lines 76–99 of `proofReport.ts`). -/
def computeGaps (runs : List RunSample) : List Gap :=
  if runs.length < 2 then []
  else sortGapsDesc (adjacentGaps (sortByTime runs))

/-- `total > 0 ? Math.round((successes / total) * 1000) / 10 : 0`, in
tenths of a percent. -/
def uptimePctTenths (successes total : Nat) : Nat :=
  if total > 0 then (2000 * successes + total) / (2 * total) else 0

/-- `gaps.length > 0 ? Math.max(...gaps.map(g => g.minutes)) : 0`, in
tenths of a minute. -/
def maxGapTenths (gaps : List Gap) : Nat :=
  match gaps with
  | [] => 0
  | _ => (gaps.map Gap.minutesTenths).foldr Nat.max 0

/-- The report's `verification` object. -/
structure Verification where
  heartbeat_continuous : Bool
  uptime_threshold_met : Bool
  no_critical_gaps : Bool
  overall_healthy : Bool
deriving DecidableEq, Repr

/-- The `verification` block computed by `generateProofReport`
(lines 249–272 of `proofReport.ts`) over the runs of the window. -/
def proofVerification (allRuns : List RunSample) : Verification :=
  let heartbeatRuns := allRuns.filter fun r => r.heartbeat
  let total := allRuns.length
  let successes := (allRuns.filter fun r => r.status = "SUCCESS").length
  let failures := (allRuns.filter fun r => r.status = "FAIL").length
  let uptimePct := uptimePctTenths successes total
  let gaps := computeGaps heartbeatRuns
  let maxGap := maxGapTenths gaps
  { heartbeat_continuous := gaps.length == 0
    uptime_threshold_met := decide (995 ≤ uptimePct)
    no_critical_gaps := decide (maxGap < 50)
    overall_healthy := gaps.length == 0 && decide (995 ≤ uptimePct) && failures == 0 }

end SelfHeal

/-!
## Theorems settling the claims

Helper definitions and lemmas come first, then one theorem per claim (plus
its witness or counterexample where required).
-/

/-- The work-item transition table exactly as the specification lists it:
`NEW→{DISPATCHED,SUPPRESSED}`, `DISPATCHED→{IN_PROGRESS,FAILED,BLOCKED}`,
`IN_PROGRESS→{PR_OPENED,FAILED,BLOCKED}`, `PR_OPENED→{VERIFIED,FAILED,BLOCKED}`,
`VERIFIED→{MERGED,FAILED,BLOCKED}`, `MERGED→{DEPLOYED,FAILED}`,
`DEPLOYED→{SUPPRESSED}`, `BLOCKED→{DISPATCHED,FAILED,SUPPRESSED}`,
`FAILED→{DISPATCHED,SUPPRESSED}`, `SUPPRESSED→{}`. -/
def specTransitionTable : Workqueue.WorkStatus → List Workqueue.WorkStatus
  | .NEW => [.DISPATCHED, .SUPPRESSED]
  | .DISPATCHED => [.IN_PROGRESS, .FAILED, .BLOCKED]
  | .IN_PROGRESS => [.PR_OPENED, .FAILED, .BLOCKED]
  | .PR_OPENED => [.VERIFIED, .FAILED, .BLOCKED]
  | .VERIFIED => [.MERGED, .FAILED, .BLOCKED]
  | .MERGED => [.DEPLOYED, .FAILED]
  | .DEPLOYED => [.SUPPRESSED]
  | .BLOCKED => [.DISPATCHED, .FAILED, .SUPPRESSED]
  | .FAILED => [.DISPATCHED, .SUPPRESSED]
  | .SUPPRESSED => []

/-- Run `transitionWorkItem` along a list of target statuses, threading the
item through and conjoining the returned booleans. -/
def runChain (item : Workqueue.WorkItemState) (targets : List Workqueue.WorkStatus)
    (opts : Workqueue.TransitionOpts) (nowMs : Nat) : Bool × Workqueue.WorkItemState :=
  match targets with
  | [] => (true, item)
  | t :: ts =>
    let r := Workqueue.transitionWorkItem item t opts nowMs
    let rest := runChain r.2 ts opts nowMs
    (r.1 && rest.1, rest.2)

/-- The chained sequence from the claim:
`DISPATCHED, IN_PROGRESS, PR_OPENED, VERIFIED, MERGED, DEPLOYED`. -/
def deployChain : List Workqueue.WorkStatus :=
  [.DISPATCHED, .IN_PROGRESS, .PR_OPENED, .VERIFIED, .MERGED, .DEPLOYED]

/-- Whether a chain of transitions succeeds, as a function of the starting
status only. -/
def chainStat : Workqueue.WorkStatus → List Workqueue.WorkStatus → Bool
  | _, [] => true
  | s, t :: ts =>
    decide (t ∈ Workqueue.VALID_TRANSITIONS s) &&
      chainStat (if t ∈ Workqueue.VALID_TRANSITIONS s then t else s) ts

lemma transitionWorkItem_fst (item : Workqueue.WorkItemState) (toSt : Workqueue.WorkStatus)
    (opts : Workqueue.TransitionOpts) (now : Nat) :
    (Workqueue.transitionWorkItem item toSt opts now).1 =
      decide (toSt ∈ Workqueue.VALID_TRANSITIONS item.status) := by
  unfold Workqueue.transitionWorkItem
  by_cases h : toSt ∈ Workqueue.VALID_TRANSITIONS item.status <;> simp [h]

lemma transitionWorkItem_status (item : Workqueue.WorkItemState) (toSt : Workqueue.WorkStatus)
    (opts : Workqueue.TransitionOpts) (now : Nat) :
    ((Workqueue.transitionWorkItem item toSt opts now).2).status =
      (if toSt ∈ Workqueue.VALID_TRANSITIONS item.status then toSt else item.status) := by
  unfold Workqueue.transitionWorkItem
  by_cases h : toSt ∈ Workqueue.VALID_TRANSITIONS item.status
  · rcases hcm : opts.cooldownMinutes with _ | m
    · by_cases hf : toSt = Workqueue.WorkStatus.FAILED
      · subst hf; simp [h, hcm]
      · simp [h, hcm, hf]
    · by_cases hm : m = 0 <;> by_cases hf : toSt = Workqueue.WorkStatus.FAILED
      · subst hf; simp [h, hcm, hm]
      · simp [h, hcm, hm, hf]
      · subst hf; simp [h, hcm, hm]
      · simp [h, hcm, hm, hf]
  · simp [h]

lemma runChain_fst (opts : Workqueue.TransitionOpts) (now : Nat) :
    ∀ (targets : List Workqueue.WorkStatus) (item : Workqueue.WorkItemState),
      (runChain item targets opts now).1 = chainStat item.status targets := by
  intro targets
  induction targets with
  | nil => intro item; rfl
  | cons t ts ih =>
    intro item
    show ((Workqueue.transitionWorkItem item t opts now).1 && _) = _
    rw [transitionWorkItem_fst, ih, transitionWorkItem_status, chainStat]

/-- C1: for every work item and requested target status,
`transitionWorkItem` succeeds exactly when the pair (current status, target
status) is in the fixed transition table the spec lists; in particular
`NEW → MERGED` is rejected while the chained sequence
`NEW→DISPATCHED→IN_PROGRESS→PR_OPENED→VERIFIED→MERGED→DEPLOYED` succeeds at
every step. -/
theorem transition_succeeds_iff_in_spec_table :
    (∀ (item : Workqueue.WorkItemState) (toSt : Workqueue.WorkStatus)
       (opts : Workqueue.TransitionOpts) (now : Nat),
        (Workqueue.transitionWorkItem item toSt opts now).1 = true ↔
          toSt ∈ specTransitionTable item.status) ∧
    (∀ (item : Workqueue.WorkItemState) (opts : Workqueue.TransitionOpts) (now : Nat),
        item.status = .NEW →
          (Workqueue.transitionWorkItem item .MERGED opts now).1 = false) ∧
    (∀ (item : Workqueue.WorkItemState) (opts : Workqueue.TransitionOpts) (now : Nat),
        item.status = .NEW → (runChain item deployChain opts now).1 = true) := by
  refine ⟨?_, ?_, ?_⟩
  · intro item toSt opts now
    rw [transitionWorkItem_fst]
    revert toSt
    have h10 : ∀ s toSt : Workqueue.WorkStatus,
        decide (toSt ∈ Workqueue.VALID_TRANSITIONS s) = true ↔ toSt ∈ specTransitionTable s := by
      decide
    exact h10 item.status
  · intro item opts now h
    rw [transitionWorkItem_fst, h]
    decide
  · intro item opts now h
    rw [runChain_fst, h]
    decide

/-- Witness for C1 at a concrete work item. -/
theorem transition_succeeds_iff_in_spec_table_witness :
    (Workqueue.transitionWorkItem ⟨.NEW, 0, none, none⟩ .MERGED ⟨none, none⟩ 0).1 = false ∧
    (runChain ⟨.NEW, 0, none, none⟩ deployChain ⟨none, none⟩ 0).1 = true := by
  refine ⟨?_, ?_⟩
  · exact transition_succeeds_iff_in_spec_table.2.1 ⟨.NEW, 0, none, none⟩ ⟨none, none⟩ 0 rfl
  · exact transition_succeeds_iff_in_spec_table.2.2 ⟨.NEW, 0, none, none⟩ ⟨none, none⟩ 0 rfl

/-- C8: a transition not present in the table makes `transitionWorkItem`
return `false` as a boolean failure (the embedding is a total function, so
no exception is possible) and leave the work item entirely unchanged:
status, attempts, last_error and cooldown_until are all as before. -/
theorem invalid_transition_false_and_unchanged
    (item : Workqueue.WorkItemState) (toSt : Workqueue.WorkStatus)
    (opts : Workqueue.TransitionOpts) (now : Nat)
    (h : toSt ∉ Workqueue.VALID_TRANSITIONS item.status) :
    Workqueue.transitionWorkItem item toSt opts now = (false, item) := by
  unfold Workqueue.transitionWorkItem
  simp [h]

/-- Witness for C8: `NEW → MERGED` on a concrete item. -/
theorem invalid_transition_false_and_unchanged_witness :
    Workqueue.transitionWorkItem ⟨.NEW, 2, some "e", some 7⟩ .MERGED ⟨none, none⟩ 5 =
      (false, ⟨.NEW, 2, some "e", some 7⟩) :=
  invalid_transition_false_and_unchanged ⟨.NEW, 2, some "e", some 7⟩ .MERGED ⟨none, none⟩ 5
    (by decide)

/-- The severity order `CRITICAL > HIGH > MEDIUM > LOW (> INFO)` of the
spec's priority policy, as a numeric rank. -/
def severityRank : Workqueue.Severity → Nat
  | .CRITICAL => 4
  | .HIGH => 3
  | .MEDIUM => 2
  | .LOW => 1
  | .INFO => 0

/-- A concrete audit issue used to instantiate witnesses. -/
def sampleIssue : Workqueue.AuditIssue :=
  { id := "i1", run_id := "r1", fingerprint := "f1", severity := "HIGH",
    category := "OPS", title := "Endpoint down", url := some "https://x",
    details_json := "\x7b\x7d", evidence_values := [] }

/-- C7 fails on the code: `priority_score` maps both MEDIUM and LOW to 50,
so the strictly-higher-severity pair (MEDIUM, LOW) does not get a strictly
higher score. -/
theorem priority_score_not_strictly_monotonic :
    ¬ (∀ s1 s2 : Workqueue.Severity, s1 ≠ .INFO → s2 ≠ .INFO →
        severityRank s2 < severityRank s1 →
        Workqueue.priorityScore s2 < Workqueue.priorityScore s1) := by
  decide

/-- C7 amended: `priority_score` is a deterministic function of severity
alone (95/80/50), and is weakly monotonic on CRITICAL, HIGH, MEDIUM, LOW:
a strictly higher severity gets a score at least as high, with equality
exactly for the pair (MEDIUM, LOW), which tie at 50. -/
theorem priority_score_weakly_monotonic :
    (∀ (runId : String) (issue : Workqueue.AuditIssue) (sev : Workqueue.Severity)
        (cat : Workqueue.Category) (fp : String),
        (Workqueue.mkWorkItemData runId issue sev cat fp).priority_score =
          Workqueue.priorityScore sev) ∧
    (∀ s1 s2 : Workqueue.Severity, s1 ≠ .INFO → s2 ≠ .INFO →
        severityRank s2 < severityRank s1 →
        Workqueue.priorityScore s2 ≤ Workqueue.priorityScore s1 ∧
        (Workqueue.priorityScore s2 = Workqueue.priorityScore s1 ↔
          s1 = .MEDIUM ∧ s2 = .LOW)) := by
  constructor
  · intro _ _ _ _ _
    rfl
  · decide

/-- Witness for the amended C7 at concrete severities. -/
theorem priority_score_weakly_monotonic_witness :
    (Workqueue.mkWorkItemData "r1" sampleIssue .HIGH .OPS "fp").priority_score =
      Workqueue.priorityScore .HIGH ∧
    (Workqueue.priorityScore .MEDIUM ≤ Workqueue.priorityScore .CRITICAL ∧
      (Workqueue.priorityScore .MEDIUM = Workqueue.priorityScore .CRITICAL ↔
        Workqueue.Severity.CRITICAL = .MEDIUM ∧ Workqueue.Severity.MEDIUM = .LOW)) :=
  ⟨priority_score_weakly_monotonic.1 "r1" sampleIssue .HIGH .OPS "fp",
   priority_score_weakly_monotonic.2 .CRITICAL .MEDIUM (by decide) (by decide) (by decide)⟩

/-- C6 fails on the code: a handler that exceeds `timeout_ms` rejects the
race with `Error('Job timeout')`, the run is recorded as TIMEOUT, but
`consecutive_failures` is computed as `status === 'FAIL' ? prev + 1 : 0`,
which resets a streak of 3 to 0 instead of incrementing it to 4. -/
theorem timeout_resets_failure_streak_counterexample :
    Orchestrator.runStatusOf (.thrown "Job timeout") = .TIMEOUT ∧
    Orchestrator.nextConsecutiveFailures 3 (Orchestrator.runStatusOf (.thrown "Job timeout")) = 0 ∧
    Orchestrator.nextConsecutiveFailures 3 (Orchestrator.runStatusOf (.thrown "Job timeout")) ≠ 3 + 1 := by
  decide

/-- C6 amended: a handler exceeding `timeout_ms` is recorded with the
distinct status TIMEOUT, but for failure-streak purposes TIMEOUT is treated
like a success, not like FAIL: `consecutive_failures` is reset to zero;
only a non-timeout error (status FAIL) increments it. -/
theorem timeout_status_distinct_and_resets_streak (prev : Nat) :
    Orchestrator.runStatusOf (.thrown "Job timeout") = .TIMEOUT ∧
    Orchestrator.nextConsecutiveFailures prev (Orchestrator.runStatusOf (.thrown "Job timeout")) = 0 ∧
    (∀ msg : String, msg ≠ "Job timeout" →
      Orchestrator.nextConsecutiveFailures prev (Orchestrator.runStatusOf (.thrown msg)) = prev + 1) := by
  refine ⟨by decide, ?_, ?_⟩
  · simp [Orchestrator.runStatusOf, Orchestrator.nextConsecutiveFailures]
  · intro msg hmsg
    simp [Orchestrator.runStatusOf, Orchestrator.nextConsecutiveFailures, hmsg]

/-- Witness for the amended C6 at a concrete streak and error message. -/
theorem timeout_status_distinct_and_resets_streak_witness :
    Orchestrator.runStatusOf (.thrown "Job timeout") = .TIMEOUT ∧
    Orchestrator.nextConsecutiveFailures 3 (Orchestrator.runStatusOf (.thrown "Job timeout")) = 0 ∧
    Orchestrator.nextConsecutiveFailures 3 (Orchestrator.runStatusOf (.thrown "boom")) = 3 + 1 :=
  ⟨(timeout_status_distinct_and_resets_streak 3).1,
   (timeout_status_distinct_and_resets_streak 3).2.1,
   (timeout_status_distinct_and_resets_streak 3).2.2 "boom" (by decide)⟩

/-- C5: for every run history, `overall_healthy` is true exactly when all
four conditions hold: no gaps recorded between adjacent heartbeat runs,
uptime at least 99.5%, maximum recorded gap under 5 minutes, and no FAIL
run in the window.  (The code computes only the first, second and fourth;
the third follows because an empty gap list has maximum gap 0.) -/
theorem overall_healthy_iff_four_conditions (allRuns : List SelfHeal.RunSample) :
    (SelfHeal.proofVerification allRuns).overall_healthy = true ↔
      (SelfHeal.computeGaps (allRuns.filter fun r => r.heartbeat) = [] ∧
       995 ≤ SelfHeal.uptimePctTenths
           ((allRuns.filter fun r => r.status = "SUCCESS").length) allRuns.length ∧
       SelfHeal.maxGapTenths (SelfHeal.computeGaps (allRuns.filter fun r => r.heartbeat)) < 50 ∧
       (allRuns.filter fun r => r.status = "FAIL").length = 0) := by
  unfold SelfHeal.proofVerification
  simp only [Bool.and_eq_true, beq_iff_eq, decide_eq_true_eq, List.length_eq_zero]
  constructor
  · rintro ⟨⟨h1, h2⟩, h3⟩
    refine ⟨h1, h2, ?_, h3⟩
    rw [h1]
    simp [SelfHeal.maxGapTenths]
  · rintro ⟨h1, h2, _, h4⟩
    exact ⟨⟨h1, h2⟩, h4⟩

/-- The empty generation state (empty `work_items` table). -/
def emptyGenState : Workqueue.GenState :=
  { db := [], nextId := 0, created := 0, updated := 0, skipped := 0, workItemIds := [] }

/-- C10: a severity string containing none of `CRIT`, `HIGH`, `MED`, `LOW`
(case-insensitively) is mapped to INFO, and the generation loop skips such
an issue before computing a fingerprint: the whole state is unchanged except
for the `skipped` counter, so no work item is created or updated. -/
theorem unrecognized_severity_maps_to_info_and_skips
    (s : String)
    (h1 : JS.jsIncludes (JS.jsUpper s) "CRIT" = false)
    (h2 : JS.jsIncludes (JS.jsUpper s) "HIGH" = false)
    (h3 : JS.jsIncludes (JS.jsUpper s) "MED" = false)
    (h4 : JS.jsIncludes (JS.jsUpper s) "LOW" = false) :
    Workqueue.mapSeverity s = .INFO ∧
    ∀ (runId : String) (st : Workqueue.GenState) (issue : Workqueue.AuditIssue),
      issue.severity = s →
      Workqueue.processIssue runId st issue = { st with skipped := st.skipped + 1 } := by
  have hsev : Workqueue.mapSeverity s = .INFO := by
    unfold Workqueue.mapSeverity
    simp [h1, h2, h3, h4]
  refine ⟨hsev, ?_⟩
  intro runId st issue hs
  unfold Workqueue.processIssue
  rw [hs, hsev]
  simp

/-- Witness for C10: the unrecognized severity string `URGENT` (and the
issue carrying it) is skipped. -/
theorem unrecognized_severity_maps_to_info_and_skips_witness :
    Workqueue.mapSeverity "URGENT" = .INFO ∧
    Workqueue.processIssue "r1" emptyGenState { sampleIssue with severity := "URGENT" } =
      { emptyGenState with skipped := emptyGenState.skipped + 1 } := by
  have h := unrecognized_severity_maps_to_info_and_skips "URGENT"
    (by decide) (by decide) (by decide) (by decide)
  exact ⟨h.1, h.2 "r1" emptyGenState { sampleIssue with severity := "URGENT" } rfl⟩

lemma canonicalBase_url_trim_inj (c s t u1 u2 : String)
    (h : Workqueue.canonicalBase ⟨c, s, t, some u1⟩ =
         Workqueue.canonicalBase ⟨c, s, t, some u2⟩) :
    JS.jsTrim u1 = JS.jsTrim u2 := by
  unfold Workqueue.canonicalBase JS.jsJoin at h
  simp only [Option.getD_some] at h
  have hd := congrArg String.data h
  simp only [String.data_append, List.append_assoc] at hd
  have h1 := List.append_cancel_left hd
  have h2 := List.append_cancel_left h1
  have h3 := List.append_cancel_left h2
  have h4 := List.append_cancel_left h3
  exact congrArg String.mk h4

/-- C9 fails on the code: `canonicalFingerprint` trims the locator, so the
two distinct locators `https://x` and `https://x ` (trailing space) produce
the identical digest — changing the locator alone need not change the
output. -/
theorem fingerprint_locator_change_preserving_output :
    Workqueue.canonicalFingerprint
        { category := "OPS", severity := "HIGH", title := "Endpoint down",
          url := some "https://x" } =
      Workqueue.canonicalFingerprint
        { category := "OPS", severity := "HIGH", title := "Endpoint down",
          url := some "https://x " } ∧
    (some "https://x" : Option String) ≠ some "https://x " := by
  constructor
  · exact congrArg Workqueue.sha256 (by decide)
  · decide

/-- C9 amended: `canonicalFingerprint` is pure and deterministic (identical
input records give identical digests), and changing the locator alone
changes the canonical base string fed to SHA-256 — hence, barring a SHA-256
collision, the digest — provided the new locator differs after trimming
(category, severity and title held fixed). -/
theorem fingerprint_deterministic_and_base_locator_sensitive :
    (∀ i j : Workqueue.FingerprintInput, i = j →
      Workqueue.canonicalFingerprint i = Workqueue.canonicalFingerprint j) ∧
    (∀ c s t u1 u2 : String, JS.jsTrim u1 ≠ JS.jsTrim u2 →
      Workqueue.canonicalBase ⟨c, s, t, some u1⟩ ≠
        Workqueue.canonicalBase ⟨c, s, t, some u2⟩) := by
  constructor
  · intro i j h
    rw [h]
  · intro c s t u1 u2 hne h
    exact hne (canonicalBase_url_trim_inj c s t u1 u2 h)

/-- Witness for the amended C9 at concrete inputs. -/
theorem fingerprint_deterministic_and_base_locator_sensitive_witness :
    Workqueue.canonicalFingerprint
        { category := "OPS", severity := "HIGH", title := "t1", url := some "u1" } =
      Workqueue.canonicalFingerprint
        { category := "OPS", severity := "HIGH", title := "t1", url := some "u1" } ∧
    Workqueue.canonicalBase ⟨"OPS", "HIGH", "t1", some "a"⟩ ≠
      Workqueue.canonicalBase ⟨"OPS", "HIGH", "t1", some "b"⟩ :=
  ⟨fingerprint_deterministic_and_base_locator_sensitive.1 _ _ rfl,
   fingerprint_deterministic_and_base_locator_sensitive.2 "OPS" "HIGH" "t1" "a" "b" (by decide)⟩

lemma acquireLock_fst_iff (db : List Orchestrator.LockRow) (key : String)
    (ttl : Nat) (owner : String) (now : Nat) :
    (Orchestrator.acquireLock db key ttl owner now).1 = true ↔
      ∀ r ∈ db, r.lock_key = key → r.expires_at < now := by
  unfold Orchestrator.acquireLock
  by_cases hany :
      ((db.filter fun r => !(r.expires_at < now)).any fun r => decide (r.lock_key = key)) = true
  · simp only [hany, if_true]
    simp only [List.any_eq_true, List.mem_filter, decide_eq_true_eq,
      Bool.not_eq_true', decide_eq_false_iff_not] at hany
    obtain ⟨r, ⟨hrdb, hrexp⟩, hrkey⟩ := hany
    constructor
    · intro hfalse
      simp at hfalse
    · intro hall
      exact absurd (hall r hrdb hrkey) hrexp
  · rw [Bool.not_eq_true] at hany
    simp only [hany]
    simp only [List.any_eq_false, List.mem_filter, decide_eq_true_eq,
      Bool.not_eq_true', decide_eq_false_iff_not] at hany
    constructor
    · intro _ r hrdb hrkey
      by_contra hexp
      exact hany r ⟨hrdb, hexp⟩ hrkey
    · intro _
      simp

lemma acquireLock_nodup (db : List Orchestrator.LockRow) (key : String)
    (ttl : Nat) (owner : String) (now : Nat)
    (h : (db.map Orchestrator.LockRow.lock_key).Nodup) :
    (((Orchestrator.acquireLock db key ttl owner now).2).map Orchestrator.LockRow.lock_key).Nodup := by
  have hclean : (((db.filter fun r => !(r.expires_at < now)).map
      Orchestrator.LockRow.lock_key)).Nodup :=
    h.sublist ((List.filter_sublist db).map Orchestrator.LockRow.lock_key)
  unfold Orchestrator.acquireLock
  by_cases hany :
      ((db.filter fun r => !(r.expires_at < now)).any fun r => decide (r.lock_key = key)) = true
  · simp only [hany, if_true]
    exact hclean
  · rw [Bool.not_eq_true] at hany
    simp only [hany, Bool.false_eq_true, if_false]
    simp only [List.any_eq_false, List.mem_filter, decide_eq_true_eq,
      Bool.not_eq_true', decide_eq_false_iff_not] at hany
    simp only [List.map_append, List.map_cons, List.map_nil, List.nodup_append]
    refine ⟨hclean, List.nodup_singleton _, ?_⟩
    intro a ha hb
    simp only [List.mem_singleton] at hb
    subst hb
    obtain ⟨r, hr, hrkey⟩ := List.mem_map.mp ha
    obtain ⟨hrdb, hrexp⟩ := List.mem_filter.mp hr
    simp only [Bool.not_eq_true', decide_eq_false_iff_not] at hrexp
    exact hany r ⟨hrdb, hrexp⟩ hrkey

/-- C4: lock acquisition deletes every expired row, then attempts the
unique-constrained insert; it returns true exactly when no unexpired row
for the key existed; key-uniqueness of the table is preserved; and of two
acquisitions of the same key made before the first expires, exactly the
first returns true. -/
theorem acquire_lock_mutual_exclusion :
    (∀ (db : List Orchestrator.LockRow) (key : String) (ttl : Nat) (owner : String) (now : Nat),
      ((Orchestrator.acquireLock db key ttl owner now).1 = true ↔
        ∀ r ∈ db, r.lock_key = key → r.expires_at < now) ∧
      ((db.map Orchestrator.LockRow.lock_key).Nodup →
        (((Orchestrator.acquireLock db key ttl owner now).2).map
            Orchestrator.LockRow.lock_key).Nodup)) ∧
    (∀ (db : List Orchestrator.LockRow) (key : String) (ttl1 ttl2 : Nat)
        (o1 o2 : String) (t1 t2 : Nat),
      (∀ r ∈ db, r.lock_key = key → r.expires_at < t1) →
      t1 ≤ t2 → t2 < Orchestrator.addSecondsMs t1 ttl1 →
      (Orchestrator.acquireLock db key ttl1 o1 t1).1 = true ∧
      (Orchestrator.acquireLock (Orchestrator.acquireLock db key ttl1 o1 t1).2
          key ttl2 o2 t2).1 = false) := by
  constructor
  · intro db key ttl owner now
    exact ⟨acquireLock_fst_iff db key ttl owner now, acquireLock_nodup db key ttl owner now⟩
  · intro db key ttl1 ttl2 o1 o2 t1 t2 hfree h12 h2exp
    have h1 : (Orchestrator.acquireLock db key ttl1 o1 t1).1 = true :=
      (acquireLock_fst_iff db key ttl1 o1 t1).mpr hfree
    refine ⟨h1, ?_⟩
    -- the freshly inserted row blocks the second acquisition
    have hrow : (⟨key, Orchestrator.addSecondsMs t1 ttl1, o1⟩ : Orchestrator.LockRow) ∈
        (Orchestrator.acquireLock db key ttl1 o1 t1).2 := by
      unfold Orchestrator.acquireLock
      have hany :
          ((db.filter fun r => !(r.expires_at < t1)).any fun r => decide (r.lock_key = key)) = false := by
        simp only [List.any_eq_false, List.mem_filter, decide_eq_true_eq,
          Bool.not_eq_true', decide_eq_false_iff_not]
        rintro r ⟨hrdb, hrexp⟩ hrkey
        exact hrexp (hfree r hrdb hrkey)
      simp [hany]
    have hiff := acquireLock_fst_iff ((Orchestrator.acquireLock db key ttl1 o1 t1).2) key ttl2 o2 t2
    rcases hb : (Orchestrator.acquireLock (Orchestrator.acquireLock db key ttl1 o1 t1).2
        key ttl2 o2 t2).1 with _ | _
    · rfl
    · exfalso
      have := hiff.mp hb
      have hlt := this _ hrow rfl
      simp only [Orchestrator.addSecondsMs] at hlt h2exp
      omega

/-- Witness for C4 at a concrete table, key and pair of times. -/
theorem acquire_lock_mutual_exclusion_witness :
    ((Orchestrator.acquireLock [] "tick-lock" 55 "a" 1000).1 = true ↔
      ∀ r ∈ ([] : List Orchestrator.LockRow), r.lock_key = "tick-lock" → r.expires_at < 1000) ∧
    (Orchestrator.acquireLock [] "tick-lock" 55 "a" 1000).1 = true ∧
    (Orchestrator.acquireLock (Orchestrator.acquireLock [] "tick-lock" 55 "a" 1000).2
        "tick-lock" 55 "b" 30000).1 = false :=
  ⟨(acquire_lock_mutual_exclusion.1 [] "tick-lock" 55 "a" 1000).1,
   acquire_lock_mutual_exclusion.2 [] "tick-lock" 55 55 "a" "b" 1000 30000
     (by simp) (by decide) (by decide)⟩

/-- The invariants of the `work_items` table threaded through generation:
primary-key freshness of the id counter, unique ids, and unique
fingerprints. -/
def GoodState (st : Workqueue.GenState) : Prop :=
  (∀ r ∈ st.db, r.id < st.nextId) ∧
  (st.db.map Workqueue.WorkItemRow.id).Nodup ∧
  (st.db.map fun r => r.data.fingerprint).Nodup

lemma processIssue_preserves_good (runId : String) (issue : Workqueue.AuditIssue)
    (st : Workqueue.GenState) (h : GoodState st) :
    GoodState (Workqueue.processIssue runId st issue) := by
  obtain ⟨hfresh, hids, hfps⟩ := h
  unfold Workqueue.processIssue
  by_cases hsev : Workqueue.mapSeverity issue.severity = .INFO
  · simp only [hsev, if_true]
    exact ⟨hfresh, hids, hfps⟩
  · simp only [hsev, if_false]
    rcases hfind : Workqueue.findByFingerprint st.db (Workqueue.issueFingerprint issue)
        with _ | ex
    · -- no existing row: a fresh row is appended
      have hnotin : ∀ r ∈ st.db, r.data.fingerprint ≠ Workqueue.issueFingerprint issue := by
        intro r hr
        have := List.find?_eq_none.mp hfind r hr
        simpa using this
      refine ⟨?_, ?_, ?_⟩
      · intro r hr
        rcases List.mem_append.mp hr with hr | hr
        · exact Nat.lt_succ_of_lt (hfresh r hr)
        · simp only [List.mem_singleton] at hr
          subst hr
          exact Nat.lt_succ_self _
      · simp only [List.map_append, List.map_cons, List.map_nil, List.nodup_append,
          List.nodup_singleton, true_and]
        refine ⟨hids, ?_⟩
        intro a ha hb
        simp only [List.mem_singleton] at hb
        subst hb
        obtain ⟨r, hr, hrid⟩ := List.mem_map.mp ha
        exact absurd hrid (Nat.ne_of_lt (hfresh r hr))
      · simp only [List.map_append, List.map_cons, List.map_nil, List.nodup_append,
          List.nodup_singleton, true_and]
        refine ⟨hfps, ?_⟩
        intro a ha hb
        simp only [List.mem_singleton] at hb
        subst hb
        obtain ⟨r, hr, hrfp⟩ := List.mem_map.mp ha
        exact absurd hrfp (hnotin r hr)
    · -- existing row found by fingerprint
      have hexmem : ex ∈ st.db := List.mem_of_find?_eq_some hfind
      have hexfp : ex.data.fingerprint = Workqueue.issueFingerprint issue := by
        have := List.find?_some hfind
        simpa using this
      by_cases hstat : ex.status ∈ Workqueue.ACTIVE_STATUSES
      · simp only [hstat, if_true]
        exact ⟨hfresh, hids, hfps⟩
      · simp only [hstat, if_false]
        have hidmap : (st.db.map fun r =>
            (if r.id = ex.id then
              { r with
                data := Workqueue.mkWorkItemData runId issue
                  (Workqueue.mapSeverity issue.severity) (Workqueue.mapCategory issue.category)
                  (Workqueue.issueFingerprint issue),
                status := Workqueue.WorkStatus.NEW }
            else r)) = st.db.map (fun r =>
              if r.id = ex.id then
                { r with
                  data := Workqueue.mkWorkItemData runId issue
                    (Workqueue.mapSeverity issue.severity) (Workqueue.mapCategory issue.category)
                    (Workqueue.issueFingerprint issue),
                  status := Workqueue.WorkStatus.NEW }
              else r) := rfl
        refine ⟨?_, ?_, ?_⟩
        · intro r hr
          obtain ⟨r0, hr0, hr0eq⟩ := List.mem_map.mp hr
          subst hr0eq
          by_cases hid : r0.id = ex.id
          · rw [if_pos hid]
            exact hfresh r0 hr0
          · rw [if_neg hid]
            exact hfresh r0 hr0
        · have : ((st.db.map fun r =>
              if r.id = ex.id then
                { r with
                  data := Workqueue.mkWorkItemData runId issue
                    (Workqueue.mapSeverity issue.severity) (Workqueue.mapCategory issue.category)
                    (Workqueue.issueFingerprint issue),
                  status := Workqueue.WorkStatus.NEW }
              else r).map Workqueue.WorkItemRow.id) = st.db.map Workqueue.WorkItemRow.id := by
            rw [List.map_map]
            refine List.map_congr_left ?_
            intro r hr
            by_cases hid : r.id = ex.id <;> simp [hid]
          rw [this]
          exact hids
        · have : ((st.db.map fun r =>
              if r.id = ex.id then
                { r with
                  data := Workqueue.mkWorkItemData runId issue
                    (Workqueue.mapSeverity issue.severity) (Workqueue.mapCategory issue.category)
                    (Workqueue.issueFingerprint issue),
                  status := Workqueue.WorkStatus.NEW }
              else r).map fun r => r.data.fingerprint) =
              st.db.map fun r => r.data.fingerprint := by
            rw [List.map_map]
            refine List.map_congr_left ?_
            intro r hr
            simp only [Function.comp_apply]
            by_cases hid : r.id = ex.id
            · have hreq : r = ex := List.inj_on_of_nodup_map hids hr hexmem hid
              subst hreq
              rw [if_pos hid]
              exact hexfp.symm
            · rw [if_neg hid]
          rw [this]
          exact hfps

lemma generate_preserves_good (runId : String) (issues : List Workqueue.AuditIssue) :
    ∀ st : Workqueue.GenState, GoodState st →
      GoodState (Workqueue.generateWorkItemsFromAuditRun runId issues st) := by
  unfold Workqueue.generateWorkItemsFromAuditRun
  induction issues with
  | nil => intro st h; exact h
  | cons i is ih =>
    intro st h
    exact ih (Workqueue.processIssue runId st i) (processIssue_preserves_good runId i st h)

/-- C2: per non-INFO issue, generation looks up the work item by
fingerprint and (a) inserts a fresh NEW row when none exists, (b) leaves
the whole state untouched (except the skipped counter) when the existing
row's status is in {IN_PROGRESS, PR_OPENED, VERIFIED, MERGED, DEPLOYED},
and (c) otherwise overwrites the row's generated columns and resets its
status to NEW; consequently generation — run once or twice over the same
batch — never produces two rows with the same fingerprint. -/
theorem generation_upserts_by_fingerprint :
    (∀ (runId : String) (st : Workqueue.GenState) (issue : Workqueue.AuditIssue),
      Workqueue.mapSeverity issue.severity ≠ .INFO →
      Workqueue.findByFingerprint st.db (Workqueue.issueFingerprint issue) = none →
      (Workqueue.processIssue runId st issue).db =
        st.db ++ [{ id := st.nextId,
                    data := Workqueue.mkWorkItemData runId issue
                      (Workqueue.mapSeverity issue.severity)
                      (Workqueue.mapCategory issue.category)
                      (Workqueue.issueFingerprint issue),
                    status := .NEW }]) ∧
    (∀ (runId : String) (st : Workqueue.GenState) (issue : Workqueue.AuditIssue)
        (ex : Workqueue.WorkItemRow),
      Workqueue.mapSeverity issue.severity ≠ .INFO →
      Workqueue.findByFingerprint st.db (Workqueue.issueFingerprint issue) = some ex →
      ex.status ∈ Workqueue.ACTIVE_STATUSES →
      Workqueue.processIssue runId st issue = { st with skipped := st.skipped + 1 }) ∧
    (∀ (runId : String) (st : Workqueue.GenState) (issue : Workqueue.AuditIssue)
        (ex : Workqueue.WorkItemRow),
      Workqueue.mapSeverity issue.severity ≠ .INFO →
      Workqueue.findByFingerprint st.db (Workqueue.issueFingerprint issue) = some ex →
      ex.status ∉ Workqueue.ACTIVE_STATUSES →
      (Workqueue.processIssue runId st issue).db =
        st.db.map fun r =>
          if r.id = ex.id then
            { r with
              data := Workqueue.mkWorkItemData runId issue
                (Workqueue.mapSeverity issue.severity)
                (Workqueue.mapCategory issue.category)
                (Workqueue.issueFingerprint issue),
              status := .NEW }
          else r) ∧
    (∀ (runId : String) (issues : List Workqueue.AuditIssue) (st : Workqueue.GenState),
      GoodState st →
      ((Workqueue.generateWorkItemsFromAuditRun runId issues st).db.map
          fun r => r.data.fingerprint).Nodup ∧
      ((Workqueue.generateWorkItemsFromAuditRun runId issues
          (Workqueue.generateWorkItemsFromAuditRun runId issues st)).db.map
          fun r => r.data.fingerprint).Nodup) := by
  refine ⟨?_, ?_, ?_, ?_⟩
  · intro runId st issue hsev hfind
    unfold Workqueue.processIssue
    simp only [hsev, if_false, hfind]
  · intro runId st issue ex hsev hfind hstat
    unfold Workqueue.processIssue
    simp only [hsev, if_false, hfind, hstat, if_true]
  · intro runId st issue ex hsev hfind hstat
    unfold Workqueue.processIssue
    simp only [hsev, if_false, hfind, hstat, if_true]
  · intro runId issues st h
    have h1 := generate_preserves_good runId issues st h
    have h2 := generate_preserves_good runId issues _ h1
    exact ⟨h1.2.2, h2.2.2⟩

/-- Witness for C2 at a concrete batch over the empty table. -/
theorem generation_upserts_by_fingerprint_witness :
    ((Workqueue.generateWorkItemsFromAuditRun "r1" [sampleIssue] emptyGenState).db.map
        fun r => r.data.fingerprint).Nodup ∧
    ((Workqueue.generateWorkItemsFromAuditRun "r1" [sampleIssue]
        (Workqueue.generateWorkItemsFromAuditRun "r1" [sampleIssue] emptyGenState)).db.map
        fun r => r.data.fingerprint).Nodup :=
  generation_upserts_by_fingerprint.2.2.2 "r1" [sampleIssue] emptyGenState
    ⟨by simp [emptyGenState], by simp [emptyGenState], by simp [emptyGenState]⟩

/-- The decimal digit character for `d < 10`. -/
def digitChar : Nat → Char
  | 0 => '0' | 1 => '1' | 2 => '2' | 3 => '3' | 4 => '4'
  | 5 => '5' | 6 => '6' | 7 => '7' | 8 => '8' | _ => '9'

/-- The decimal numeral of `n`, with explicit recursion fuel. -/
def natReprGo : Nat → Nat → List Char
  | 0, _ => []
  | fuel + 1, n =>
    if n < 10 then [digitChar n]
    else natReprGo fuel (n / 10) ++ [digitChar (n % 10)]

/-- The decimal numeral of `n` as a string. -/
def natRepr (n : Nat) : String := ⟨natReprGo (n + 1) n⟩

/-- The five-field cron expression `*/n * * * *`. -/
def mkStepExpr (n : Nat) : String := "*/" ++ natRepr n ++ " * * * *"

lemma digitChar_spec : ∀ d : Nat, d < 10 →
    JS.isDigitChar (digitChar d) = true ∧ (digitChar d).toNat - 48 = d := by
  decide

lemma natReprGo_spec : ∀ fuel n : Nat, n < fuel →
    (natReprGo fuel n ≠ [] ∧ (∀ c ∈ natReprGo fuel n, JS.isDigitChar c = true) ∧
     JS.digitsVal (natReprGo fuel n) = n) := by
  intro fuel
  induction fuel with
  | zero => intro n h; omega
  | succ fuel ih =>
    intro n h
    by_cases h10 : n < 10
    · unfold natReprGo
      rw [if_pos h10]
      obtain ⟨hd1, hd2⟩ := digitChar_spec n h10
      refine ⟨by simp, ?_, ?_⟩
      · intro c hc
        simp only [List.mem_singleton] at hc
        subst hc
        exact hd1
      · show 0 * 10 + ((digitChar n).toNat - 48) = n
        rw [hd2]
        omega
    · unfold natReprGo
      rw [if_neg h10]
      have hlt : n / 10 < n := Nat.div_lt_self (by omega) (by omega)
      have hdiv : n / 10 < fuel := by omega
      obtain ⟨ih1, ih2, ih3⟩ := ih (n / 10) hdiv
      obtain ⟨hd1, hd2⟩ := digitChar_spec (n % 10) (Nat.mod_lt _ (by omega))
      refine ⟨by simp, ?_, ?_⟩
      · intro c hc
        rcases List.mem_append.mp hc with hc | hc
        · exact ih2 c hc
        · simp only [List.mem_singleton] at hc
          subst hc
          exact hd1
      · unfold JS.digitsVal
        rw [List.foldl_append]
        show (JS.digitsVal (natReprGo fuel (n / 10))) * 10 + ((digitChar (n % 10)).toNat - 48) = n
        rw [ih3, hd2]
        omega

lemma natRepr_spec (n : Nat) :
    (natRepr n).data ≠ [] ∧ (∀ c ∈ (natRepr n).data, JS.isDigitChar c = true) ∧
    JS.digitsVal (natRepr n).data = n :=
  natReprGo_spec (n + 1) n (Nat.lt_succ_self n)

lemma takeWhile_of_all {p : Char → Bool} :
    ∀ l : List Char, (∀ c ∈ l, p c = true) → l.takeWhile p = l := by
  intro l
  induction l with
  | nil => intro _; rfl
  | cons c cs ih =>
    intro h
    have hc := h c (by simp)
    rw [List.takeWhile_cons, hc]
    simp only [if_true]
    rw [ih (fun d hd => h d (by simp [hd]))]

lemma parseIntOpt_natRepr (n : Nat) : JS.parseIntOpt (natRepr n) = some n := by
  unfold JS.parseIntOpt
  obtain ⟨h1, h2, h3⟩ := natRepr_spec n
  rw [takeWhile_of_all _ h2]
  have hne : (natRepr n).data.isEmpty = false := by
    rcases hd : (natRepr n).data with _ | _
    · exact absurd hd h1
    · rfl
  simp only [hne, Bool.false_eq_true, if_false, h3]

lemma digit_ne_space {c : Char} (h : JS.isDigitChar c = true) : c ≠ ' ' := by
  intro hc
  subst hc
  exact absurd h (by decide)

lemma splitOnCharAux_no_sep (sep : Char) :
    ∀ (l cur rest : List Char), (∀ c ∈ l, c ≠ sep) →
      JS.splitOnCharAux sep cur (l ++ rest) =
        JS.splitOnCharAux sep (l.reverse ++ cur) rest := by
  intro l
  induction l with
  | nil => intro cur rest _; simp
  | cons c cs ih =>
    intro cur rest h
    have hc : c ≠ sep := h c (by simp)
    have hstep : JS.splitOnCharAux sep cur (c :: (cs ++ rest)) =
        if c = sep then cur.reverse :: JS.splitOnCharAux sep [] (cs ++ rest)
        else JS.splitOnCharAux sep (c :: cur) (cs ++ rest) := rfl
    show JS.splitOnCharAux sep cur (c :: (cs ++ rest)) = _
    rw [hstep, if_neg hc, ih (c :: cur) rest (fun d hd => h d (by simp [hd]))]
    congr 1
    simp

lemma jsSplit_mkStepExpr (n : Nat) :
    JS.jsSplit (mkStepExpr n) ' ' = ["*/" ++ natRepr n, "*", "*", "*", "*"] := by
  obtain ⟨h1, h2, h3⟩ := natRepr_spec n
  have hdata : (mkStepExpr n).data =
      ('*' :: '/' :: (natRepr n).data) ++
        (' ' :: '*' :: ' ' :: '*' :: ' ' :: '*' :: ' ' :: '*' :: []) := by
    show ("*/" ++ natRepr n ++ " * * * *").data = _
    rw [String.data_append, String.data_append]
    rfl
  have hnosep : ∀ c ∈ '*' :: '/' :: (natRepr n).data, c ≠ ' ' := by
    intro c hc
    simp only [List.mem_cons] at hc
    rcases hc with hc | hc | hc
    · subst hc; decide
    · subst hc; decide
    · exact digit_ne_space (h2 c hc)
  unfold JS.jsSplit JS.splitOnChar
  rw [hdata, splitOnCharAux_no_sep ' ' ('*' :: '/' :: (natRepr n).data) [] _ hnosep]
  have hsteps : JS.splitOnCharAux ' '
      (('*' :: '/' :: (natRepr n).data).reverse ++ [])
      (' ' :: '*' :: ' ' :: '*' :: ' ' :: '*' :: ' ' :: '*' :: []) =
      (('*' :: '/' :: (natRepr n).data).reverse ++ []).reverse ::
        JS.splitOnCharAux ' ' [] ('*' :: ' ' :: '*' :: ' ' :: '*' :: ' ' :: '*' :: []) := by
    rfl
  rw [hsteps]
  have hrest : JS.splitOnCharAux ' ' []
      ('*' :: ' ' :: '*' :: ' ' :: '*' :: ' ' :: '*' :: []) =
      [['*'], ['*'], ['*'], ['*']] := by rfl
  rw [hrest]
  simp only [List.append_nil, List.reverse_reverse, List.map_cons, List.map_nil]
  rfl

lemma matchesField_star (v : Nat) : CronMaster.matchesField "*" v = true := by
  unfold CronMaster.matchesField
  rw [if_pos rfl]

lemma stepField_ne_star (n : Nat) : ("*/" ++ natRepr n) ≠ "*" := by
  intro h
  have hd := congrArg String.data h
  rw [String.data_append] at hd
  simp at hd

lemma matchesField_step (n : Nat) (hn : 0 < n) (v : Nat) :
    CronMaster.matchesField ("*/" ++ natRepr n) v = (v % n == 0) := by
  unfold CronMaster.matchesField
  rw [if_neg (stepField_ne_star n)]
  have hsw : JS.jsStartsWith ("*/" ++ natRepr n) "*/" = true := by
    unfold JS.jsStartsWith
    rw [String.data_append]
    show JS.listIsPrefix ['*', '/'] ('*' :: '/' :: (natRepr n).data) = true
    simp [JS.listIsPrefix]
  rw [hsw]
  simp only [if_true]
  have hslice : JS.jsSlice ("*/" ++ natRepr n) 2 = natRepr n := by
    unfold JS.jsSlice
    rw [String.data_append]
    show String.mk (List.drop 2 ('*' :: '/' :: (natRepr n).data)) = natRepr n
    rfl
  rw [hslice, parseIntOpt_natRepr]
  show (if n = 0 then false else v % n == 0) = (v % n == 0)
  rw [if_neg (by omega)]

/-- C3: for every step expression `*/n * * * *` (with a positive step `n`)
and every clock reading, `shouldRunNow` reports the schedule as due exactly
when the minute satisfies `minute % n == 0`, independently of the hour,
day-of-month, month and day-of-week. -/
theorem cron_step_expression_due_iff (n : Nat) (hn : 0 < n) (t : CronMaster.CronTime) :
    CronMaster.shouldRunNow (mkStepExpr n) t = true ↔ t.minute % n = 0 := by
  unfold CronMaster.shouldRunNow
  rw [jsSplit_mkStepExpr]
  show (CronMaster.matchesField ("*/" ++ natRepr n) t.minute &&
    CronMaster.matchesField "*" t.hour &&
    CronMaster.matchesField "*" t.dayOfMonth &&
    CronMaster.matchesField "*" t.month &&
    CronMaster.matchesField "*" t.dayOfWeek) = true ↔ t.minute % n = 0
  rw [matchesField_step n hn, matchesField_star, matchesField_star, matchesField_star,
    matchesField_star]
  simp

/-- Witness for C3: `mkStepExpr 15` is literally `*/15 * * * *`; it is due
at minute 30 and not due at minute 16 regardless of the other fields. -/
theorem cron_step_expression_due_iff_witness :
    mkStepExpr 15 = "*/15 * * * *" ∧
    CronMaster.shouldRunNow (mkStepExpr 15) ⟨30, 7, 3, 9, 2⟩ = true ∧
    CronMaster.shouldRunNow (mkStepExpr 15) ⟨16, 7, 3, 9, 2⟩ = false := by
  refine ⟨by decide, ?_, ?_⟩
  · exact (cron_step_expression_due_iff 15 (by decide) ⟨30, 7, 3, 9, 2⟩).mpr (by decide)
  · have h := cron_step_expression_due_iff 15 (by decide) ⟨16, 7, 3, 9, 2⟩
    rcases hb : CronMaster.shouldRunNow (mkStepExpr 15) ⟨16, 7, 3, 9, 2⟩ with _ | _
    · rfl
    · exact absurd (h.mp hb) (by decide)
